import Mathlib

/-!
Verification of the Adaptive-Power-Management-for-Microgrids repository.

Shallow embedding of the microgrid simulator (`src/envs/microgrid_env.py`),
the safety supervisor (`src/safety/supervisor.py`), the rule-based controller
(`src/controllers/rule_based.py`), the evaluation runner
(`src/evaluation/runner.py`) and the comparison engine
(`src/evaluation/comparison.py`).  Python floats are modelled as rationals
(`ℚ`); numpy float arrays become `List ℚ`; raised exceptions become
`Except.error` carrying the exception message; numpy helpers (`np.clip`,
`np.allclose`) are given their documented meaning.
-/

namespace Microgrid

/-- `np.clip(x, lo, hi)`: equivalent to `min (max x lo) hi`. -/
def clip (x lo hi : ℚ) : ℚ := min (max x lo) hi

/-- `BatteryConfig` from `src/config.py` (the numeric fields used by the core). -/
structure BatteryConfig where
  capacity_kwh : ℚ
  soc_init : ℚ
  soc_min : ℚ
  soc_max : ℚ
  max_charge_kw : ℚ
  max_discharge_kw : ℚ
  charge_efficiency : ℚ
  discharge_efficiency : ℚ
  temperature_c : ℚ
  degradation_cost_per_kwh : ℚ

/-- `GridConfig` from `src/config.py`. -/
structure GridConfig where
  max_import_kw : ℚ
  max_export_kw : ℚ
  sell_price_factor : ℚ

/-- `RewardConfig` from `src/config.py`. -/
structure RewardConfig where
  unmet_load_penalty_per_kwh : ℚ
  export_curtail_penalty_per_kwh : ℚ

/-- `EnvironmentConfig` from `src/config.py` (the fields the simulator reads:
`episode_horizon`, `time_step_hours`, `seed`; the profile-CSV path only selects
which profile source backs `get_profiles` and is absorbed into `Env.profilesOf`
below). -/
structure EnvironmentConfig where
  episode_horizon : ℕ
  time_step_hours : ℚ
  seed : ℤ

/-- `MicrogridConfig` from `src/config.py`. -/
structure MicrogridConfig where
  environment : EnvironmentConfig
  battery : BatteryConfig
  grid : GridConfig
  reward : RewardConfig

/-- `Profiles` from `src/data/profiles.py`: four aligned series.  A series is
modelled as a total function from the timestep index; the environment only
reads indices clipped into `[0, horizon-1]` (`MicrogridEnv._value_at`). -/
structure Profiles where
  renewable_kw : ℕ → ℚ
  load_kw : ℕ → ℚ
  price_import_per_kwh : ℕ → ℚ
  price_export_per_kwh : ℕ → ℚ

/-- The immutable part of a `MicrogridEnv` (`src/envs/microgrid_env.py`,
`__init__`): the configuration plus the profile source.  `get_profiles` is a
deterministic function of the seed (synthetic profiles come from
`np.random.default_rng(seed)`, CSV profiles ignore the seed), so
`MicrogridEnv._reload_profiles` is modelled by the pure map `profilesOf`. -/
structure Env where
  cfg : MicrogridConfig
  profilesOf : ℤ → Profiles

/-- `self.horizon = int(self.cfg.environment.episode_horizon)`. -/
def Env.horizon (env : Env) : ℕ := env.cfg.environment.episode_horizon

/-- `self.dt_hours = float(self.cfg.environment.time_step_hours)`. -/
def Env.dt_hours (env : Env) : ℚ := env.cfg.environment.time_step_hours

/-- The mutable episode state owned by one `MicrogridEnv` instance:
`self._t`, `self._soc`, `self._temperature_c`, `self._profiles`
(`None` until the first `reset`, modelled as `Option`). -/
structure EnvState where
  t : ℕ
  soc : ℚ
  temperature_c : ℚ
  profiles : Option Profiles

/-- `MicrogridEnv._value_at`: reads `series[int(np.clip(index, 0, horizon-1))]`.
The index is a natural number here, so only the upper clip is visible. -/
def _value_at (series : ℕ → ℚ) (horizon : ℕ) (index : ℕ) : ℚ :=
  series (min index (horizon - 1))

/-- `MicrogridEnv._get_obs`: the fixed 8-element observation vector
`[renew_now, renew_next, load_now, load_next, soc, temp_c, price_now, price_next]`. -/
def _get_obs (env : Env) (p : Profiles) (t : ℕ) (soc temp : ℚ) : List ℚ :=
  [_value_at p.renewable_kw env.horizon t,
   _value_at p.renewable_kw env.horizon (t + 1),
   _value_at p.load_kw env.horizon t,
   _value_at p.load_kw env.horizon (t + 1),
   soc,
   temp,
   _value_at p.price_import_per_kwh env.horizon t,
   _value_at p.price_import_per_kwh env.horizon (t + 1)]

/-- `MicrogridEnv._apply_battery_constraints`: given the current soc and the
requested power `cmd_kw` (discharge positive), returns
`(new soc, actual_kw, clipped_energy_kwh)`.  Mirrors the source line by line:
`capacity = max(capacity_kwh, 1e-6)`; the discharge branch runs when
`cmd_kw >= 0`, the charge branch otherwise; the new soc is
`np.clip(soc + delta_soc, soc_min, soc_max)`. -/
def _apply_battery_constraints (b : BatteryConfig) (dt_hours soc cmd_kw : ℚ) :
    ℚ × ℚ × ℚ :=
  let capacity := max b.capacity_kwh (1 / 1000000)
  if 0 ≤ cmd_kw then
    let energy_available := max (soc - b.soc_min) 0 * capacity
    let discharge_limit_soc := energy_available * b.discharge_efficiency / dt_hours
    let actual_kw := min cmd_kw (min b.max_discharge_kw discharge_limit_soc)
    let delta_soc := -(actual_kw * dt_hours) / (capacity * b.discharge_efficiency)
    (clip (soc + delta_soc) b.soc_min b.soc_max, actual_kw,
      |cmd_kw - actual_kw| * dt_hours)
  else
    let room_available := max (b.soc_max - soc) 0 * capacity
    let charge_limit_soc := room_available / (dt_hours * b.charge_efficiency)
    let actual_kw := -min |cmd_kw| (min b.max_charge_kw charge_limit_soc)
    let delta_soc := -actual_kw * dt_hours * b.charge_efficiency / capacity
    (clip (soc + delta_soc) b.soc_min b.soc_max, actual_kw,
      |cmd_kw - actual_kw| * dt_hours)

/-- Per-step telemetry: the `info` dictionary built by `MicrogridEnv.step`. -/
structure StepInfo where
  timestep : ℕ
  renewable_kw : ℚ
  load_kw : ℚ
  battery_kw : ℚ
  grid_kw : ℚ
  soc : ℚ
  temperature_c : ℚ
  unmet_load_kwh : ℚ
  curtailed_kwh : ℚ
  cost_grid : ℚ
  cost_degradation : ℚ
  cost_penalty : ℚ

/-- `MicrogridEnv.reset`: reloads profiles for the given seed (falling back to
the configured seed), sets `t = 0`, clips the starting soc (`options["soc_init"]`
override or `battery.soc_init`) into `[soc_min, soc_max]`, and restores the
configured battery temperature.  Returns the new state and the observation. -/
def MicrogridEnv.reset (env : Env) (seed : Option ℤ) (soc_override : Option ℚ) :
    EnvState × List ℚ :=
  let use_seed := seed.getD env.cfg.environment.seed
  let p := env.profilesOf use_seed
  let start_soc := soc_override.getD env.cfg.battery.soc_init
  let soc := clip start_soc env.cfg.battery.soc_min env.cfg.battery.soc_max
  let temp := env.cfg.battery.temperature_c
  (⟨0, soc, temp, some p⟩, _get_obs env p 0 soc temp)

/-- `MicrogridEnv.step`: the single-step transition.  The `assert` on unloaded
profiles and the `ValueError` on an action whose flattened size is not 2 become
`Except.error` (both are raised before any state is mutated).  On success the
result is `(new state, observation, reward, terminated, truncated, info)`. -/
def MicrogridEnv.step (env : Env) (s : EnvState) (action : List ℚ) :
    Except String (EnvState × List ℚ × ℚ × Bool × Bool × StepInfo) :=
  match s.profiles with
  | none => .error "assert self._profiles is not None"
  | some p =>
    if action.length ≠ 2 then
      .error "Action must have exactly 2 values: [battery_kw, grid_kw]."
    else
      let idx := s.t
      let renewable_kw := _value_at p.renewable_kw env.horizon idx
      let load_kw := _value_at p.load_kw env.horizon idx
      let price_import := _value_at p.price_import_per_kwh env.horizon idx
      let price_export := _value_at p.price_export_per_kwh env.horizon idx
      let battery_cmd_kw := action.getD 0 0
      let grid_cmd_kw :=
        clip (action.getD 1 0) (-env.cfg.grid.max_export_kw) env.cfg.grid.max_import_kw
      let bc := _apply_battery_constraints env.cfg.battery env.dt_hours s.soc battery_cmd_kw
      let soc2 := bc.1
      let battery_kw := bc.2.1
      let clipped_energy_kwh := bc.2.2
      let net_balance_kw := renewable_kw + battery_kw + grid_cmd_kw - load_kw
      let unmet_load_kwh := max 0 (-net_balance_kw) * env.dt_hours
      let curtailed_kwh := max 0 net_balance_kw * env.dt_hours
      let import_cost := max 0 grid_cmd_kw * price_import * env.dt_hours
      let export_revenue := max 0 (-grid_cmd_kw) * price_export * env.dt_hours
      let grid_cost := import_cost - export_revenue
      let degradation_cost :=
        |battery_kw| * env.dt_hours * env.cfg.battery.degradation_cost_per_kwh
      let penalty_cost :=
        unmet_load_kwh * env.cfg.reward.unmet_load_penalty_per_kwh
          + curtailed_kwh * env.cfg.reward.export_curtail_penalty_per_kwh
          + clipped_energy_kwh * env.cfg.reward.unmet_load_penalty_per_kwh * (1 / 4)
      let reward := -(grid_cost + degradation_cost + penalty_cost)
      let temp2 := clip (s.temperature_c + (1 / 100) * |battery_kw| - 1 / 50) 15 60
      let t2 := s.t + 1
      let terminated : Bool := env.horizon ≤ t2
      let info : StepInfo :=
        ⟨idx, renewable_kw, load_kw, battery_kw, grid_cmd_kw, soc2, temp2,
          unmet_load_kwh, curtailed_kwh, grid_cost, degradation_cost, penalty_cost⟩
      .ok (⟨t2, soc2, temp2, some p⟩, _get_obs env p t2 soc2 temp2,
        reward, terminated, false, info)

/-- `SafetyDecision` from `src/safety/supervisor.py`. -/
structure SafetyDecision where
  action : List ℚ
  overridden : Bool
  reason : String

/-- `np.allclose(a, b, atol=1e-6)` with numpy's default `rtol=1e-5`:
element-wise `|a - b| ≤ atol + rtol * |b|` (shapes agree here). -/
def np_allclose (a b : List ℚ) : Bool :=
  (List.zip a b).all fun q =>
    decide (|q.1 - q.2| ≤ 1 / 1000000 + 1 / 100000 * |q.2|)

/-- The three guard rails of `SafetySupervisor.apply`, applied in order to the
already-clipped battery term `safe0`: low-soc discharge block, high-soc charge
block, high-temperature block.  Returns the final battery term and the reason
codes recorded along the way. -/
def guardRails (b : BatteryConfig) (soc temp_c safe0 : ℚ) : ℚ × List String :=
  let step2 :=
    if soc ≤ b.soc_min + 1 / 100 ∧ 0 < safe0 then ((0 : ℚ), ["blocked_discharge_low_soc"])
    else (safe0, [])
  let step3 :=
    if b.soc_max - 1 / 100 ≤ soc ∧ step2.1 < 0 then
      ((0 : ℚ), step2.2 ++ ["blocked_charge_high_soc"])
    else step2
  if 48 ≤ temp_c ∧ 0 < |step3.1| then
    ((0 : ℚ), step3.2 ++ ["blocked_battery_high_temp"])
  else step3

/-- `SafetySupervisor.apply` (`src/safety/supervisor.py`): copies the action,
rejects sizes other than 1 or 2 and observations shorter than 6 entries, clips
the battery term to `[-max_charge_kw, max_discharge_kw]` (and the grid term to
`[-max_export_kw, max_import_kw]` when present), then applies the three guard
rails in order, each able to zero the battery term and append its reason code.
`overridden` is `not np.allclose(original, safe, atol=1e-6)`. -/
def SafetySupervisor.apply (cfg : MicrogridConfig) (action observation : List ℚ) :
    Except String SafetyDecision :=
  if action.length ≠ 1 ∧ action.length ≠ 2 then
    .error "Expected action shape (1,) -> [battery_kw]. Legacy (2,) -> [battery_kw, grid_kw] is also supported."
  else if observation.length < 6 then
    .error "Observation must include SoC and battery temperature."
  else
    let soc := observation.getD 4 0
    let temp_c := observation.getD 5 0
    let b := cfg.battery
    let g := cfg.grid
    let safe0 := clip (action.getD 0 0) (-b.max_charge_kw) b.max_discharge_kw
    let safe1 :=
      if action.length = 2 then
        [clip (action.getD 1 0) (-g.max_export_kw) g.max_import_kw]
      else []
    let step4 := guardRails b soc temp_c safe0
    let safe := step4.1 :: safe1
    let reasons := step4.2
    let overridden := !np_allclose action safe
    .ok ⟨safe, overridden, if reasons.isEmpty then "none" else String.intercalate "," reasons⟩

/-- `RuleBasedPolicyConfig` from `src/controllers/rule_based.py`. -/
structure RuleBasedPolicyConfig where
  low_price_threshold : ℚ
  high_price_threshold : ℚ
  reserve_soc : ℚ
  target_soc : ℚ
  high_soc_discharge_bias : ℚ
  low_price_charge_fraction : ℚ

/-- The dataclass defaults of `RuleBasedPolicyConfig`. -/
def RuleBasedPolicyConfig.default : RuleBasedPolicyConfig :=
  ⟨11 / 100, 16 / 100, 20 / 100, 70 / 100, 75 / 100, 1 / 2⟩

/-- `RuleBasedController.act` (`src/controllers/rule_based.py`): heuristic
dispatcher over (renewable_now, load_now, soc, price_now).  The low-price
charging branch evaluates `g.max_import_kw` with `g` never bound in the method,
so taking that branch raises `NameError` at run time; it is embedded as an
error, exactly where the source line sits. -/
def RuleBasedController.act (cfg : MicrogridConfig) (p : RuleBasedPolicyConfig)
    (observation : List ℚ) : Except String (List ℚ) :=
  if observation.length < 8 then
    .error "Observation must have at least 8 features."
  else
    let renewable_now := observation.getD 0 0
    let load_now := observation.getD 2 0
    let soc := observation.getD 4 0
    let price_now := observation.getD 6 0
    let b := cfg.battery
    let net_excess := max 0 (renewable_now - load_now)
    let net_deficit := max 0 (load_now - renewable_now)
    if 0 < net_excess ∧ soc < b.soc_max - 1 / 100 then
      .ok [-min b.max_charge_kw net_excess]
    else if 0 < net_deficit then
      let reserve_floor := max (b.soc_min + 1 / 100) p.reserve_soc
      if reserve_floor < soc ∧ p.high_price_threshold ≤ price_now then
        .ok [min b.max_discharge_kw net_deficit]
      else if p.high_soc_discharge_bias < soc then
        .ok [min b.max_discharge_kw (1 / 2 * net_deficit)]
      else
        .ok [0]
    else if price_now ≤ p.low_price_threshold ∧ soc < min p.target_soc (b.soc_max - 1 / 100) then
      .error "NameError: name g is not defined"
    else
      .ok [0]

/-- `_compute_improvement` (`src/evaluation/comparison.py`): per-metric
`(improved, improvement_pct)` under an objective string. -/
def _compute_improvement (baseline candidate : ℚ) (objective : String) :
    Except String (Option Bool × Option ℚ) :=
  if objective = "neutral" then .ok (none, none)
  else if objective = "higher" then
    let improved := decide (baseline < candidate)
    if |baseline| < 1 / 1000000000000 then .ok (some improved, none)
    else .ok (some improved, some ((candidate - baseline) / |baseline| * 100))
  else if objective = "lower" then
    let improved := decide (candidate < baseline)
    if |baseline| < 1 / 1000000000000 then .ok (some improved, none)
    else .ok (some improved, some ((baseline - candidate) / |baseline| * 100))
  else .error "Unsupported objective"

/-- `EpisodeMetrics` from `src/evaluation/runner.py`. -/
structure EpisodeMetrics where
  episode : ℕ
  total_reward : ℚ
  grid_cost : ℚ
  degradation_cost : ℚ
  penalty_cost : ℚ
  unmet_load_kwh : ℚ
  curtailed_kwh : ℚ
  import_kwh : ℚ
  export_kwh : ℚ
  battery_throughput_kwh : ℚ
  safety_overrides : ℕ
  steps : ℕ
deriving DecidableEq

/-- `EvaluationSummary` from `src/evaluation/runner.py`. -/
structure EvaluationSummary where
  policy : String
  episodes : ℤ
  avg_reward : ℚ
  avg_grid_cost : ℚ
  avg_degradation_cost : ℚ
  avg_penalty_cost : ℚ
  avg_unmet_load_kwh : ℚ
  avg_curtailed_kwh : ℚ
  avg_import_kwh : ℚ
  avg_export_kwh : ℚ
  avg_battery_throughput_kwh : ℚ
  avg_safety_overrides : ℚ
  details : List EpisodeMetrics

/-- A policy (`PolicyFn` in `src/evaluation/runner.py`) is a Python closure:
its call may read and update captured mutable state (the random policy reads
the action space's persistent RNG, a learned model may be stochastic), so it is
embedded as a state transformer `state → observation → action × state`.  A
pure controller like the rule-based baseline simply ignores and returns its
state. -/
def PolicyFn (σ : Type) : Type := σ → List ℚ → List ℚ × σ

/-- The zero-initialized accumulators of `run_episode`, with `episode` fixed at
the episode index. -/
def initMetrics (episode_index : ℕ) : EpisodeMetrics :=
  ⟨episode_index, 0, 0, 0, 0, 0, 0, 0, 0, 0, 0, 0⟩

/-- One iteration body of the `while not done` loop of `run_episode`: add this
step's reward, itemized costs and energies to the accumulator. -/
def accumulateStep (env : Env) (acc : EpisodeMetrics) (reward : ℚ) (info : StepInfo)
    (overridden : Bool) : EpisodeMetrics :=
  { acc with
    total_reward := acc.total_reward + reward
    grid_cost := acc.grid_cost + info.cost_grid
    degradation_cost := acc.degradation_cost + info.cost_degradation
    penalty_cost := acc.penalty_cost + info.cost_penalty
    unmet_load_kwh := acc.unmet_load_kwh + info.unmet_load_kwh
    curtailed_kwh := acc.curtailed_kwh + info.curtailed_kwh
    import_kwh := acc.import_kwh + max 0 info.grid_kw * env.dt_hours
    export_kwh := acc.export_kwh + max 0 (-info.grid_kw) * env.dt_hours
    battery_throughput_kwh := acc.battery_throughput_kwh + |info.battery_kw| * env.dt_hours
    safety_overrides := acc.safety_overrides + (if overridden then 1 else 0)
    steps := acc.steps + 1 }

/-- The `while not done` loop of `run_episode`.  The Python loop ends when the
environment reports `terminated or truncated`; here it recurses on a fuel
bound of `horizon + 1`, which `episodeLoop_total` below proves is never
exhausted (each successful step advances `t` by one and terminates once
`t ≥ horizon`), so the fuel branch is unreachable on every run the theorems
speak about. -/
def episodeLoop (env : Env) {σ : Type} (policy : PolicyFn σ) (use_safety : Bool) :
    ℕ → EnvState → List ℚ → σ → EpisodeMetrics → Except String (EpisodeMetrics × σ)
  | 0, _, _, _, _ => .error "while loop exceeded the modelled fuel bound"
  | fuel + 1, s, obs, ps, acc =>
    let pa := policy ps obs
    let sanitized : Except String (List ℚ × Bool) :=
      if use_safety then
        (SafetySupervisor.apply env.cfg pa.1 obs).map fun d => (d.action, d.overridden)
      else .ok (pa.1, false)
    match sanitized with
    | .error e => .error e
    | .ok (action, overridden) =>
      match MicrogridEnv.step env s action with
      | .error e => .error e
      | .ok (s2, obs2, reward, terminated, truncated, info) =>
        let acc2 := accumulateStep env acc reward info overridden
        if terminated || truncated then .ok (acc2, pa.2)
        else episodeLoop env policy use_safety fuel s2 obs2 pa.2 acc2

/-- `run_episode` (`src/evaluation/runner.py`): reset with the given seed, then
drive the loop, returning the per-episode metrics record and the policy state
left behind by the closure. -/
def run_episode (env : Env) {σ : Type} (policy : PolicyFn σ) (ps : σ)
    (episode_index : ℕ) (seed : Option ℤ) (use_safety : Bool) :
    Except String (EpisodeMetrics × σ) :=
  let r := MicrogridEnv.reset env seed none
  episodeLoop env policy use_safety (env.horizon + 1) r.1 r.2 ps (initMetrics episode_index)

/-- `float(np.mean(values))` over a list of per-episode values. -/
def npMean (xs : List ℚ) : ℚ := xs.sum / xs.length

/-- The `for episode in range(episodes)` loop of `evaluate_policy`: runs the
episodes in order, appending each metrics record and threading the policy
state; the first exception aborts the run. -/
def episodesLoop (env : Env) {σ : Type} (policy : PolicyFn σ) (use_safety : Bool)
    (seed_start : ℤ) :
    List ℕ → σ → List EpisodeMetrics → Except String (List EpisodeMetrics × σ)
  | [], ps, acc => .ok (acc, ps)
  | episode :: rest, ps, acc =>
    match run_episode env policy ps episode (some (seed_start + episode)) use_safety with
    | .error e => .error e
    | .ok (m, ps2) => episodesLoop env policy use_safety seed_start rest ps2 (acc ++ [m])

/-- `evaluate_policy` (`src/evaluation/runner.py`): rejects `episodes <= 0`
before the episode loop, then runs episodes `0 … episodes-1` with seeds
`seed_start + episode`, and averages each metric over the details. -/
def evaluate_policy (env : Env) {σ : Type} (policy : PolicyFn σ) (ps : σ)
    (policy_name : String) (episodes : ℤ) (seed_start : ℤ) (use_safety : Bool) :
    Except String (EvaluationSummary × σ) :=
  if episodes ≤ 0 then .error "episodes must be greater than 0."
  else
    match episodesLoop env policy use_safety seed_start (List.range episodes.toNat) ps [] with
    | .error e => .error e
    | .ok (details, psF) =>
      .ok (⟨policy_name, episodes,
        npMean (details.map EpisodeMetrics.total_reward),
        npMean (details.map EpisodeMetrics.grid_cost),
        npMean (details.map EpisodeMetrics.degradation_cost),
        npMean (details.map EpisodeMetrics.penalty_cost),
        npMean (details.map EpisodeMetrics.unmet_load_kwh),
        npMean (details.map EpisodeMetrics.curtailed_kwh),
        npMean (details.map EpisodeMetrics.import_kwh),
        npMean (details.map EpisodeMetrics.export_kwh),
        npMean (details.map EpisodeMetrics.battery_throughput_kwh),
        npMean (details.map fun m => (m.safety_overrides : ℚ)),
        details⟩, psF)

/-- A word-level store of numpy arrays, for the aliasing behaviour of
`SafetySupervisor.apply`: addresses index the allocated arrays, `.copy()`
allocates at the next fresh address. -/
abbrev Store : Type := List (List ℚ)

/-- `SafetySupervisor.apply` again, as a store‑passing program over the caller's
array: `action_addr` is the address of the caller's action array;
`safe = np.asarray(action, dtype=np.float32).copy()` allocates a fresh array
(as does `original = safe.copy()`), and *every* subsequent element write in the
method targets `safe` only.  Returns the final store, the address of the
returned (sanitized) array, and the `(overridden, reason)` pair. -/
def SafetySupervisor.applyMem (cfg : MicrogridConfig) (st : Store) (action_addr : ℕ)
    (observation : List ℚ) : Except String (Store × ℕ × Bool × String) :=
  let input := st.getD action_addr []
  let safe_addr := st.length
  let st1 : Store := st ++ [input]
  let original_addr := st1.length
  let st2 : Store := st1 ++ [input]
  if input.length ≠ 1 ∧ input.length ≠ 2 then
    .error "Expected action shape (1,) -> [battery_kw]. Legacy (2,) -> [battery_kw, grid_kw] is also supported."
  else if observation.length < 6 then
    .error "Observation must include SoC and battery temperature."
  else
    let soc := observation.getD 4 0
    let temp_c := observation.getD 5 0
    let b := cfg.battery
    let g := cfg.grid
    let st3 := st2.set safe_addr
      (input.set 0 (clip (input.getD 0 0) (-b.max_charge_kw) b.max_discharge_kw))
    let st4 :=
      if input.length = 2 then
        st3.set safe_addr
          ((st3.getD safe_addr []).set 1
            (clip (input.getD 1 0) (-g.max_export_kw) g.max_import_kw))
      else st3
    let guard2 :=
      if soc ≤ b.soc_min + 1 / 100 ∧ 0 < (st4.getD safe_addr []).getD 0 0 then
        (st4.set safe_addr ((st4.getD safe_addr []).set 0 0), ["blocked_discharge_low_soc"])
      else (st4, [])
    let guard3 :=
      if b.soc_max - 1 / 100 ≤ soc ∧ (guard2.1.getD safe_addr []).getD 0 0 < 0 then
        (guard2.1.set safe_addr ((guard2.1.getD safe_addr []).set 0 0),
          guard2.2 ++ ["blocked_charge_high_soc"])
      else guard2
    let guard4 :=
      if 48 ≤ temp_c ∧ 0 < |(guard3.1.getD safe_addr []).getD 0 0| then
        (guard3.1.set safe_addr ((guard3.1.getD safe_addr []).set 0 0),
          guard3.2 ++ ["blocked_battery_high_temp"])
      else guard3
    let stF := guard4.1
    let overridden :=
      !np_allclose (stF.getD original_addr []) (stF.getD safe_addr [])
    .ok (stF, safe_addr, overridden,
      if guard4.2.isEmpty then "none" else String.intercalate "," guard4.2)

/-! Concrete configurations used as witnesses: the dataclass defaults of
`src/config.py`, plus a small test environment with constant profiles. -/

/-- `BatteryConfig()` dataclass defaults. -/
def defaultBattery : BatteryConfig :=
  ⟨150, 1 / 2, 1 / 10, 9 / 10, 75, 75, 19 / 20, 19 / 20, 30, 1 / 50⟩

/-- `GridConfig()` dataclass defaults. -/
def defaultGrid : GridConfig := ⟨250, 150, 4 / 5⟩

/-- `RewardConfig()` dataclass defaults. -/
def defaultReward : RewardConfig := ⟨15, 1 / 10⟩

/-- `MicrogridConfig()` dataclass defaults (horizon 96, dt 0.25 h, seed 42). -/
def defaultConfig : MicrogridConfig :=
  ⟨⟨96, 1 / 4, 42⟩, defaultBattery, defaultGrid, defaultReward⟩

/-- A constant profile source (renewable 100 kW, load 100 kW, prices 0.10/0.08). -/
def constProfiles : Profiles :=
  ⟨fun _ => 100, fun _ => 100, fun _ => 1 / 10, fun _ => 2 / 25⟩

/-- A `MicrogridEnv` over the default configuration and constant profiles. -/
def defaultEnv : Env := ⟨defaultConfig, fun _ => constProfiles⟩

/-- The policy state reached by a closure after the first `i` episodes of an
`evaluate_policy` run: the state threaded through the sequential episode loop
(unchanged by an episode that raises). -/
def policyStateChain (env : Env) {σ : Type} (policy : PolicyFn σ) (use_safety : Bool)
    (seed_start : ℤ) (s : σ) : ℕ → σ
  | 0 => s
  | i + 1 =>
    match run_episode env policy (policyStateChain env policy use_safety seed_start s i) i
        (some (seed_start + (i : ℤ))) use_safety with
    | .ok r => r.2
    | .error _ => policyStateChain env policy use_safety seed_start s i

/-- The all-zero-action policy (`[0, 0]`: no battery command, no grid
command), a pure function of the observation. -/
def zero_policy : PolicyFn Unit := fun u _ => ([0, 0], u)

/-- One possible draw stream of the action space's generator: the first draw
and the later draws differ (any non-constant generator realizes this). -/
def rngStream : ℕ → ℚ := fun n => if n = 0 then 10 else 20

/-- `random_policy_fn` (`src/evaluation/runner.py`): the closure returned for
the random policy calls `env.action_space.sample()`.  Modelled library
behaviour: `gymnasium` draws that sample from the Box space's own persistent
PRNG; `env.reset(seed=...)` seeds only `env._np_random`, and nothing in this
repository ever seeds or resets the action space's generator, so its state
survives across `evaluate_policy` invocations and advances at every draw.  The
generator is modelled as a position in the fixed draw stream `rngStream`. -/
def random_policy_fn : PolicyFn ℕ := fun n _ => ([rngStream n, 0], n + 1)

/-- A small concrete environment (horizon 1, dt 1 h, lossless 100 kWh battery,
constant profiles) used to exercise the evaluation loop on explicit inputs. -/
def env8 : Env :=
  ⟨⟨⟨1, 1, 0⟩, ⟨100, 1 / 2, 0, 1, 50, 50, 1, 1, 30, 0⟩, ⟨100, 100, 1⟩, ⟨0, 0⟩⟩,
    fun _ => ⟨fun _ => 5, fun _ => 5, fun _ => 1, fun _ => 1⟩⟩

lemma clip_mem_Icc {x lo hi : ℚ} (h : lo ≤ hi) : clip x lo hi ∈ Set.Icc lo hi :=
  ⟨le_min (le_max_right x lo) h, min_le_right _ _⟩

lemma clip_eq_self {x lo hi : ℚ} (h1 : lo ≤ x) (h2 : x ≤ hi) : clip x lo hi = x := by
  simp [clip, max_eq_left h1, min_eq_left h2]

lemma clip_zero {lo hi : ℚ} (h1 : lo ≤ 0) (h2 : 0 ≤ hi) : clip 0 lo hi = 0 :=
  clip_eq_self h1 h2

/-- Claim C5: on an observation with `renewable_now = load_now` (no surplus, no
deficit), `price_now = 0.09` at or below the low-price threshold `0.11`, and
`soc = 0.5` below `min(target_soc, soc_max - 0.01)`, the rule-based
controller's low-price branch is taken and the code raises
`NameError` (the branch reads the unbound name `g`), instead of returning the
claimed bounded charging action. -/
theorem claim_C5 :
    RuleBasedController.act defaultConfig RuleBasedPolicyConfig.default
        [100, 100, 100, 100, 1 / 2, 30, 9 / 100, 9 / 100]
      = .error "NameError: name g is not defined" := by
  norm_num [RuleBasedController.act, RuleBasedPolicyConfig.default, defaultConfig,
    defaultBattery]

/-- Claim C6: for the objective `"higher"` the comparison engine sets
`improved = (candidate > baseline)` and `improvement_pct` to
`(candidate - baseline) / |baseline| * 100` exactly when `|baseline| ≥ 1e-12`
(`none` otherwise); in particular baseline −120 and candidate −90 give
`improved = true` and `improvement_pct = +25`. -/
theorem claim_C6 :
    (∀ b c : ℚ, ∃ imp pct,
      _compute_improvement b c "higher" = .ok (some imp, pct) ∧
      (imp = true ↔ b < c) ∧
      ((1 : ℚ) / 1000000000000 ≤ |b| → pct = some ((c - b) / |b| * 100)) ∧
      (|b| < 1 / 1000000000000 → pct = none)) ∧
    _compute_improvement (-120) (-90) "higher" = .ok (some true, some 25) := by
  constructor
  · intro b c
    unfold _compute_improvement
    rw [if_neg (by decide : ¬("higher" = "neutral")), if_pos rfl]
    by_cases h : |b| < 1 / 1000000000000
    · exact ⟨_, none, by rw [if_pos h], decide_eq_true_iff,
        fun h2 => absurd h (not_lt.mpr h2), fun _ => rfl⟩
    · exact ⟨_, some ((c - b) / |b| * 100), by rw [if_neg h], decide_eq_true_iff,
        fun _ => rfl, fun h2 => absurd h2 h⟩
  · unfold _compute_improvement
    rw [if_neg (by decide : ¬("higher" = "neutral")), if_pos rfl,
      if_neg (by norm_num), decide_eq_true (by norm_num : (-120 : ℚ) < -90)]
    norm_num

/-- Claim C1: after a reset of the default environment, `MicrogridEnv.step`
rejects the 1-element action `[0]` (and the empty and 3-element actions) with
the malformed-action `ValueError`, and accepts only the legacy 2-element form
`[0, 0]` — the spec requires the 1-element `[battery_kw]` form to be accepted
as well. -/
theorem claim_C1 :
    MicrogridEnv.step defaultEnv (MicrogridEnv.reset defaultEnv (some 7) none).1 [0]
        = .error "Action must have exactly 2 values: [battery_kw, grid_kw]." ∧
    (MicrogridEnv.step defaultEnv (MicrogridEnv.reset defaultEnv (some 7) none).1
        [0, 0]).isOk = true ∧
    MicrogridEnv.step defaultEnv (MicrogridEnv.reset defaultEnv (some 7) none).1 [1, 2, 3]
        = .error "Action must have exactly 2 values: [battery_kw, grid_kw]." ∧
    MicrogridEnv.step defaultEnv (MicrogridEnv.reset defaultEnv (some 7) none).1 []
        = .error "Action must have exactly 2 values: [battery_kw, grid_kw]." := by
  refine ⟨?_, ?_, ?_, ?_⟩ <;>
    simp [MicrogridEnv.step, MicrogridEnv.reset, Except.isOk, Except.toBool]

/-- Claim C4, counterexample: with `capacity_kwh = 1e-7` (positive, so a valid
configuration under the claim's hypotheses), `soc = 0.5`, `soc_min = 0`,
`dt = 1`, efficiencies 1 and `max_discharge_kw = 1`, a discharge request of
1 kW realizes `5e-7` kW (the code floors the capacity at `1e-6`), not the
claimed `min(cmd, max_discharge, max(soc−soc_min,0)·capacity·eff/dt) = 5e-8`. -/
theorem claim_C4_counterexample :
    (_apply_battery_constraints ⟨1 / 10000000, 1 / 2, 0, 1, 1, 1, 1, 1, 30, 0⟩
        1 (1 / 2) 1).2.1 ≠
      min 1 (min 1 (max ((1 : ℚ) / 2 - 0) 0 * (1 / 10000000) * 1 / 1)) := by
  norm_num [_apply_battery_constraints]

/-- Claim C4 (amended: the simulator computes with the guarded capacity
`max(capacity_kwh, 1e-6)`, so the claimed formulas hold verbatim for every
configuration with `capacity_kwh ≥ 1e-6`): for a discharge request
`cmd_kw ≥ 0` from an in-range soc, the realized power equals
`min(cmd_kw, max_discharge_kw, max(soc−soc_min,0)·capacity·discharge_eff/dt)`,
never exceeds either bound, and the new soc is exactly
`soc − actual·dt/(capacity·discharge_eff)` (the numerical clamp is inactive). -/
theorem claim_C4 (b : BatteryConfig) (dt soc cmd : ℚ)
    (hcmd : 0 ≤ cmd) (hdt : 0 < dt) (hdeff : 0 < b.discharge_efficiency)
    (hmaxd : 0 ≤ b.max_discharge_kw) (hcap : 1 / 1000000 ≤ b.capacity_kwh)
    (hsoc1 : b.soc_min ≤ soc) (hsoc2 : soc ≤ b.soc_max) :
    (_apply_battery_constraints b dt soc cmd).2.1
        = min cmd (min b.max_discharge_kw
            (max (soc - b.soc_min) 0 * b.capacity_kwh * b.discharge_efficiency / dt)) ∧
    (_apply_battery_constraints b dt soc cmd).2.1 ≤ b.max_discharge_kw ∧
    (_apply_battery_constraints b dt soc cmd).2.1
        ≤ max (soc - b.soc_min) 0 * b.capacity_kwh * b.discharge_efficiency / dt ∧
    (_apply_battery_constraints b dt soc cmd).1
        = soc - (_apply_battery_constraints b dt soc cmd).2.1 * dt
            / (b.capacity_kwh * b.discharge_efficiency) := by
  have hcap0 : (0 : ℚ) < b.capacity_kwh := lt_of_lt_of_le (by norm_num) hcap
  have hguard : max b.capacity_kwh (1 / 1000000) = b.capacity_kwh := max_eq_left hcap
  have hms : max (soc - b.soc_min) 0 = soc - b.soc_min := max_eq_left (sub_nonneg.2 hsoc1)
  set L := max (soc - b.soc_min) 0 * b.capacity_kwh * b.discharge_efficiency / dt with hLdef
  have hL0 : 0 ≤ L := by
    refine div_nonneg (mul_nonneg (mul_nonneg (le_max_right _ 0) hcap0.le) hdeff.le) hdt.le
  set A := min cmd (min b.max_discharge_kw L) with hAdef
  have hA0 : 0 ≤ A := le_min hcmd (le_min hmaxd hL0)
  have hAL : A ≤ L := le_trans (min_le_right _ _) (min_le_right _ _)
  have hLback : L * dt / (b.capacity_kwh * b.discharge_efficiency) = soc - b.soc_min := by
    rw [hLdef, hms]
    field_simp
    ring
  have hdrop : A * dt / (b.capacity_kwh * b.discharge_efficiency) ≤ soc - b.soc_min := by
    rw [← hLback]
    gcongr
  have hdrop0 : 0 ≤ A * dt / (b.capacity_kwh * b.discharge_efficiency) :=
    div_nonneg (mul_nonneg hA0 hdt.le) (mul_pos hcap0 hdeff).le
  have hlow : b.soc_min ≤ soc + -(A * dt) / (b.capacity_kwh * b.discharge_efficiency) := by
    rw [neg_div]
    linarith
  have hup : soc + -(A * dt) / (b.capacity_kwh * b.discharge_efficiency) ≤ b.soc_max := by
    rw [neg_div]
    linarith
  have hres : _apply_battery_constraints b dt soc cmd
      = (clip (soc + -(A * dt) / (b.capacity_kwh * b.discharge_efficiency))
          b.soc_min b.soc_max, A, |cmd - A| * dt) := by
    simp only [_apply_battery_constraints, if_pos hcmd, hguard, ← hLdef, ← hAdef]
  rw [hres]
  refine ⟨rfl, le_trans (min_le_right _ _) (min_le_left _ _), hAL, ?_⟩
  rw [clip_eq_self hlow hup, neg_div]
  ring

/-- Claim C4 witness: the spec's example scenario (default battery, dt = 0.25 h,
soc = 0.5, requested discharge 100 kW) instantiates the amended theorem. -/
theorem claim_C4_witness :
    (_apply_battery_constraints defaultBattery (1 / 4) (1 / 2) 100).2.1
        = min 100 (min defaultBattery.max_discharge_kw
            (max ((1 : ℚ) / 2 - defaultBattery.soc_min) 0 * defaultBattery.capacity_kwh
              * defaultBattery.discharge_efficiency / (1 / 4))) ∧
    (_apply_battery_constraints defaultBattery (1 / 4) (1 / 2) 100).2.1
        ≤ defaultBattery.max_discharge_kw ∧
    (_apply_battery_constraints defaultBattery (1 / 4) (1 / 2) 100).2.1
        ≤ max ((1 : ℚ) / 2 - defaultBattery.soc_min) 0 * defaultBattery.capacity_kwh
            * defaultBattery.discharge_efficiency / (1 / 4) ∧
    (_apply_battery_constraints defaultBattery (1 / 4) (1 / 2) 100).1
        = 1 / 2 - (_apply_battery_constraints defaultBattery (1 / 4) (1 / 2) 100).2.1 * (1 / 4)
            / (defaultBattery.capacity_kwh * defaultBattery.discharge_efficiency) :=
  claim_C4 defaultBattery (1 / 4) (1 / 2) 100 (by norm_num) (by norm_num)
    (by norm_num [defaultBattery]) (by norm_num [defaultBattery])
    (by norm_num [defaultBattery]) (by norm_num [defaultBattery])
    (by norm_num [defaultBattery])

/-- Claim C10: the store-passing supervisor never writes to the caller's
action array: for any valid action (size 1 or 2) and observation (at least 6
entries), `apply` succeeds, the array at the caller's address is element-wise
unchanged in the final store, and the returned sanitized array lives at a
fresh address distinct from the input's. -/
theorem claim_C10 (cfg : MicrogridConfig) (st : Store) (a : ℕ) (obs : List ℚ)
    (ha : a < st.length)
    (hlen : (st.getD a []).length = 1 ∨ (st.getD a []).length = 2)
    (hobs : 6 ≤ obs.length) :
    ∃ r, SafetySupervisor.applyMem cfg st a obs = .ok r ∧
      r.1.getD a [] = st.getD a [] ∧ r.2.1 ≠ a := by
  have hc1 : ¬((st.getD a []).length ≠ 1 ∧ (st.getD a []).length ≠ 2) := by
    rcases hlen with h | h <;> simp [List.getD] at h <;> simp [h]
  have hc2 : ¬(obs.length < 6) := not_lt.2 hobs
  have hne : a ≠ st.length := Nat.ne_of_lt ha
  simp only [SafetySupervisor.applyMem, if_neg hc1, if_neg hc2]
  refine ⟨_, rfl, ?_, (Nat.ne_of_lt ha).symm⟩
  split <;> split <;> split <;> split <;>
    simp [List.getD, List.getElem?_set_ne hne, List.getElem?_append, ha,
      Nat.lt_succ_of_lt, List.getElem?_set_ne]

/-- Claim C10 witness: a concrete store with one 2-element action array and a
valid observation. -/
theorem claim_C10_witness :
    ∃ r, SafetySupervisor.applyMem defaultConfig [[30, 10]] 0
          [100, 100, 100, 100, 1 / 2, 30, 1 / 10, 1 / 10] = .ok r ∧
      r.1.getD 0 [] = ([[30, 10]] : Store).getD 0 [] ∧ r.2.1 ≠ 0 :=
  claim_C10 defaultConfig [[30, 10]] 0 [100, 100, 100, 100, 1 / 2, 30, 1 / 10, 1 / 10]
    (by norm_num) (by norm_num) (by norm_num)

lemma guardRails_low_soc {b : BatteryConfig} {soc temp c : ℚ}
    (hsoc : soc ≤ b.soc_min + 1 / 100) (hc : 0 < c) :
    (guardRails b soc temp c).1 = 0 := by
  simp only [guardRails]
  split_ifs <;> simp_all [abs_pos]

lemma guardRails_high_soc {b : BatteryConfig} {soc temp c : ℚ}
    (hsoc : b.soc_max - 1 / 100 ≤ soc) (hc : c < 0) :
    (guardRails b soc temp c).1 = 0 := by
  have h2 : ¬(0 < c) := not_lt.2 hc.le
  simp only [guardRails]
  split_ifs <;> simp_all [abs_pos]

lemma guardRails_high_temp {b : BatteryConfig} {soc temp c : ℚ}
    (htemp : 48 ≤ temp) (hc : c ≠ 0) :
    (guardRails b soc temp c).1 = 0 := by
  simp only [guardRails]
  split_ifs <;> simp_all [abs_pos]

/-- Claim C3: for every action of size 1 or 2 and observation with at least 6
entries, the supervisor succeeds and the sanitized battery term is 0 whenever
the clipped battery term was a discharge (`> 0`) with `soc ≤ soc_min + 0.01`,
a charge (`< 0`) with `soc ≥ soc_max − 0.01`, or non-zero with
`temperature ≥ 48`. -/
theorem claim_C3 (cfg : MicrogridConfig) (action obs : List ℚ)
    (hsize : action.length = 1 ∨ action.length = 2) (hobs : 6 ≤ obs.length) :
    ∃ d, SafetySupervisor.apply cfg action obs = .ok d ∧
      ((0 < clip (action.getD 0 0) (-cfg.battery.max_charge_kw) cfg.battery.max_discharge_kw ∧
          obs.getD 4 0 ≤ cfg.battery.soc_min + 1 / 100 → d.action.getD 0 0 = 0) ∧
       (clip (action.getD 0 0) (-cfg.battery.max_charge_kw) cfg.battery.max_discharge_kw < 0 ∧
          cfg.battery.soc_max - 1 / 100 ≤ obs.getD 4 0 → d.action.getD 0 0 = 0) ∧
       (clip (action.getD 0 0) (-cfg.battery.max_charge_kw) cfg.battery.max_discharge_kw ≠ 0 ∧
          48 ≤ obs.getD 5 0 → d.action.getD 0 0 = 0)) := by
  have hc1 : ¬(action.length ≠ 1 ∧ action.length ≠ 2) := by
    rcases hsize with h | h <;> simp [h]
  have hc2 : ¬(obs.length < 6) := not_lt.2 hobs
  simp only [SafetySupervisor.apply, if_neg hc1, if_neg hc2]
  refine ⟨_, rfl, ?_, ?_, ?_⟩ <;> intro h <;> obtain ⟨ha, hb⟩ := h <;>
      simp only [List.getD_cons_zero]
  · exact guardRails_low_soc hb ha
  · exact guardRails_high_soc hb ha
  · exact guardRails_high_temp hb ha

/-- Claim C3 witness: a 1-element discharge request at soc 0.1 (at the
low-soc floor of the default battery). -/
theorem claim_C3_witness :
    ∃ d, SafetySupervisor.apply defaultConfig [50]
          [100, 100, 100, 100, 1 / 10, 30, 1 / 10, 1 / 10] = .ok d ∧
      ((0 < clip (([50] : List ℚ).getD 0 0) (-defaultConfig.battery.max_charge_kw)
            defaultConfig.battery.max_discharge_kw ∧
          ([100, 100, 100, 100, 1 / 10, 30, 1 / 10, 1 / 10] : List ℚ).getD 4 0
            ≤ defaultConfig.battery.soc_min + 1 / 100 → d.action.getD 0 0 = 0) ∧
       (clip (([50] : List ℚ).getD 0 0) (-defaultConfig.battery.max_charge_kw)
            defaultConfig.battery.max_discharge_kw < 0 ∧
          defaultConfig.battery.soc_max - 1 / 100
            ≤ ([100, 100, 100, 100, 1 / 10, 30, 1 / 10, 1 / 10] : List ℚ).getD 4 0 →
          d.action.getD 0 0 = 0) ∧
       (clip (([50] : List ℚ).getD 0 0) (-defaultConfig.battery.max_charge_kw)
            defaultConfig.battery.max_discharge_kw ≠ 0 ∧
          48 ≤ ([100, 100, 100, 100, 1 / 10, 30, 1 / 10, 1 / 10] : List ℚ).getD 5 0 →
          d.action.getD 0 0 = 0)) :=
  claim_C3 defaultConfig [50] [100, 100, 100, 100, 1 / 10, 30, 1 / 10, 1 / 10]
    (by norm_num) (by norm_num)

/-- A call against a `MicrogridEnv` instance: `reset(seed, options)` or
`step(action)` — the two public mutators of the simulator state. -/
inductive EnvCall where
  | reset : Option ℤ → Option ℚ → EnvCall
  | step : List ℚ → EnvCall

/-- The state after one call: `reset` rebuilds the state; a `step` that raises
(unloaded profiles or malformed action — both raised before any mutation)
leaves the state unchanged, otherwise the state advances. -/
def applyCall (env : Env) (s : EnvState) : EnvCall → EnvState
  | .reset seed ov => (MicrogridEnv.reset env seed ov).1
  | .step a =>
    match MicrogridEnv.step env s a with
    | .ok r => r.1
    | .error _ => s

lemma _apply_battery_constraints_soc_mem {b : BatteryConfig} {dt soc cmd : ℚ}
    (h : b.soc_min ≤ b.soc_max) :
    (_apply_battery_constraints b dt soc cmd).1 ∈ Set.Icc b.soc_min b.soc_max := by
  unfold _apply_battery_constraints
  split_ifs <;> exact clip_mem_Icc h

lemma reset_soc_mem {env : Env} {seed : Option ℤ} {ov : Option ℚ}
    (h : env.cfg.battery.soc_min ≤ env.cfg.battery.soc_max) :
    (MicrogridEnv.reset env seed ov).1.soc
      ∈ Set.Icc env.cfg.battery.soc_min env.cfg.battery.soc_max := by
  simpa [MicrogridEnv.reset] using clip_mem_Icc h

lemma step_ok_soc {env : Env} {s : EnvState} {a : List ℚ}
    {r : EnvState × List ℚ × ℚ × Bool × Bool × StepInfo}
    (hstep : MicrogridEnv.step env s a = .ok r)
    (h : env.cfg.battery.soc_min ≤ env.cfg.battery.soc_max) :
    r.1.soc ∈ Set.Icc env.cfg.battery.soc_min env.cfg.battery.soc_max := by
  unfold MicrogridEnv.step at hstep
  split at hstep
  · simp at hstep
  · split at hstep
    · simp at hstep
    · simp only [Except.ok.injEq] at hstep
      rw [← hstep]
      exact _apply_battery_constraints_soc_mem h

lemma applyCall_soc_mem {env : Env} {s : EnvState} {c : EnvCall}
    (h : env.cfg.battery.soc_min ≤ env.cfg.battery.soc_max)
    (hs : s.soc ∈ Set.Icc env.cfg.battery.soc_min env.cfg.battery.soc_max) :
    (applyCall env s c).soc ∈ Set.Icc env.cfg.battery.soc_min env.cfg.battery.soc_max := by
  cases c with
  | reset seed ov => exact reset_soc_mem h
  | step a =>
    unfold applyCall
    rcases hstep : MicrogridEnv.step env s a with e | r
    · simpa [hstep] using hs
    · simpa [hstep] using step_ok_soc hstep h

/-- Claim C2: for every valid configuration (`soc_min ≤ soc_max`, positive
capacity, efficiencies in `(0, 1]`) and every sequence of reset and step calls
with arbitrary actions following an initial reset, the state of charge lies in
`[soc_min, soc_max]` after every call (the theorem quantifies over all call
suffixes, hence covers the state after each intermediate call). -/
theorem claim_C2 (env : Env)
    (hminmax : env.cfg.battery.soc_min ≤ env.cfg.battery.soc_max)
    (hcap : 0 < env.cfg.battery.capacity_kwh)
    (hce0 : 0 < env.cfg.battery.charge_efficiency)
    (hce1 : env.cfg.battery.charge_efficiency ≤ 1)
    (hde0 : 0 < env.cfg.battery.discharge_efficiency)
    (hde1 : env.cfg.battery.discharge_efficiency ≤ 1)
    (seed : Option ℤ) (ov : Option ℚ) (calls : List EnvCall) :
    (List.foldl (applyCall env) (MicrogridEnv.reset env seed ov).1 calls).soc
      ∈ Set.Icc env.cfg.battery.soc_min env.cfg.battery.soc_max := by
  have H : ∀ s : EnvState,
      s.soc ∈ Set.Icc env.cfg.battery.soc_min env.cfg.battery.soc_max →
      (List.foldl (applyCall env) s calls).soc
        ∈ Set.Icc env.cfg.battery.soc_min env.cfg.battery.soc_max := by
    induction calls with
    | nil => exact fun s hs => hs
    | cons c cs ih => exact fun s hs => ih _ (applyCall_soc_mem hminmax hs)
  exact H _ (reset_soc_mem hminmax)

/-- Claim C2 witness: the default configuration, an out-of-range
`soc_init` override, an over-limit discharge, an over-limit charge and a
mid-trace reset. -/
theorem claim_C2_witness :
    (List.foldl (applyCall defaultEnv)
        (MicrogridEnv.reset defaultEnv none (some (99 / 100))).1
        [.step [200, 0], .step [-500, 0], .reset none none, .step [75, 0]]).soc
      ∈ Set.Icc defaultEnv.cfg.battery.soc_min defaultEnv.cfg.battery.soc_max :=
  claim_C2 defaultEnv (by norm_num [defaultEnv, defaultConfig, defaultBattery])
    (by norm_num [defaultEnv, defaultConfig, defaultBattery])
    (by norm_num [defaultEnv, defaultConfig, defaultBattery])
    (by norm_num [defaultEnv, defaultConfig, defaultBattery])
    (by norm_num [defaultEnv, defaultConfig, defaultBattery])
    (by norm_num [defaultEnv, defaultConfig, defaultBattery])
    none (some (99 / 100)) [.step [200, 0], .step [-500, 0], .reset none none, .step [75, 0]]

lemma _get_obs_length {env : Env} {p : Profiles} {t : ℕ} {soc temp : ℚ} :
    (_get_obs env p t soc temp).length = 8 := by
  simp [_get_obs]

lemma apply_ok_of_valid {cfg : MicrogridConfig} {a obs : List ℚ}
    (hsize : a.length = 1 ∨ a.length = 2) (hobs : 6 ≤ obs.length) :
    ∃ d, SafetySupervisor.apply cfg a obs = .ok d ∧ d.action.length = a.length := by
  have hc1 : ¬(a.length ≠ 1 ∧ a.length ≠ 2) := by
    rcases hsize with h | h <;> simp [h]
  have hc2 : ¬(obs.length < 6) := not_lt.2 hobs
  simp only [SafetySupervisor.apply, if_neg hc1, if_neg hc2]
  refine ⟨_, rfl, ?_⟩
  rcases hsize with h | h <;> simp [h]

lemma step_ok_of_len2 {env : Env} {s : EnvState} {a : List ℚ} {p : Profiles}
    (hp : s.profiles = some p) (hl : a.length = 2) :
    ∃ s2 obs2 rew tm info,
      MicrogridEnv.step env s a = .ok (s2, obs2, rew, tm, false, info) ∧
      s2.profiles = some p ∧ s2.t = s.t + 1 ∧ obs2.length = 8 ∧
      (tm = true ↔ env.horizon ≤ s.t + 1) := by
  obtain ⟨t, soc, temp, prof⟩ := s
  cases prof with
  | none => exact absurd hp (by simp)
  | some q =>
    have hq : q = p := by simpa using hp
    subst hq
    rcases hres : MicrogridEnv.step env ⟨t, soc, temp, some q⟩ a with e | r
    · exact absurd hres (by simp [MicrogridEnv.step, hl])
    · obtain ⟨s2, obs2, rew, tm, tr, info⟩ := r
      have hcomp := hres
      simp only [MicrogridEnv.step, hl, ne_eq, not_true_eq_false, if_false,
        Except.ok.injEq, Prod.mk.injEq] at hcomp
      obtain ⟨h1, h2, h3, h4, h5, h6⟩ := hcomp
      refine ⟨s2, obs2, rew, tm, info, ?_, ?_, ?_, ?_, ?_⟩
      · rw [← h5]
      · rw [← h1]
      · rw [← h1]
      · rw [← h2]
        exact _get_obs_length
      · rw [← h4]
        simp

lemma episodeLoop_total {σ : Type} {env : Env} {policy : PolicyFn σ} {safety : Bool}
    (hpol : ∀ t o, ((policy t o).1).length = 2) :
    ∀ (fuel : ℕ) (s : EnvState) (obs : List ℚ) (ps : σ) (acc : EpisodeMetrics)
      (p : Profiles), s.profiles = some p → obs.length = 8 →
      env.horizon ≤ fuel + s.t →
      ∃ r, episodeLoop env policy safety (fuel + 1) s obs ps acc = .ok r := by
  intro fuel
  induction fuel with
  | zero =>
    intro s obs ps acc p hp hobs hfuel
    obtain ⟨act, ov, hsan, hact⟩ : ∃ act ov,
        (if safety then
          (SafetySupervisor.apply env.cfg (policy ps obs).1 obs).map
            (fun d => (d.action, d.overridden))
         else .ok ((policy ps obs).1, false)) = .ok (act, ov) ∧ act.length = 2 := by
      by_cases hs : safety
      · obtain ⟨d, hd, hdl⟩ :=
          @apply_ok_of_valid env.cfg _ _ (Or.inr (hpol ps obs)) (by rw [hobs]; norm_num)
        exact ⟨d.action, d.overridden, by simp [hs, hd, Except.map], by rw [hdl]; exact hpol ps obs⟩
      · exact ⟨(policy ps obs).1, false, by simp [hs], hpol ps obs⟩
    obtain ⟨s2, obs2, rew, tm, info, hstep, hp2, ht2, hobs2, htm⟩ :=
      @step_ok_of_len2 env _ _ _ hp hact
    have htm2 : tm = true := htm.2 (by omega)
    refine ⟨(accumulateStep env acc rew info ov, (policy ps obs).2), ?_⟩
    rw [episodeLoop.eq_2]
    simp [hsan, hstep, htm2]
  | succ fuel ih =>
    intro s obs ps acc p hp hobs hfuel
    obtain ⟨act, ov, hsan, hact⟩ : ∃ act ov,
        (if safety then
          (SafetySupervisor.apply env.cfg (policy ps obs).1 obs).map
            (fun d => (d.action, d.overridden))
         else .ok ((policy ps obs).1, false)) = .ok (act, ov) ∧ act.length = 2 := by
      by_cases hs : safety
      · obtain ⟨d, hd, hdl⟩ :=
          @apply_ok_of_valid env.cfg _ _ (Or.inr (hpol ps obs)) (by rw [hobs]; norm_num)
        exact ⟨d.action, d.overridden, by simp [hs, hd, Except.map], by rw [hdl]; exact hpol ps obs⟩
      · exact ⟨(policy ps obs).1, false, by simp [hs], hpol ps obs⟩
    obtain ⟨s2, obs2, rew, tm, info, hstep, hp2, ht2, hobs2, htm⟩ :=
      @step_ok_of_len2 env _ _ _ hp hact
    cases htmv : tm with
    | true =>
      refine ⟨(accumulateStep env acc rew info ov, (policy ps obs).2), ?_⟩
      rw [episodeLoop.eq_2]
      simp [hsan, hstep, htmv]
    | false =>
      obtain ⟨r, hr⟩ := ih s2 obs2 (policy ps obs).2
        (accumulateStep env acc rew info ov) p hp2 hobs2 (by omega)
      refine ⟨r, ?_⟩
      rw [episodeLoop.eq_2]
      simp only [hsan, hstep, htmv, Bool.false_or]
      simpa using hr

lemma run_episode_total {σ : Type} {env : Env} {policy : PolicyFn σ} {safety : Bool}
    (hpol : ∀ t o, ((policy t o).1).length = 2) (ps : σ) (idx : ℕ) (seed : Option ℤ) :
    ∃ r, run_episode env policy ps idx seed safety = .ok r := by
  unfold run_episode
  exact episodeLoop_total hpol env.horizon _ _ _ _
    (env.profilesOf (seed.getD env.cfg.environment.seed))
    (by simp [MicrogridEnv.reset]) (by simp [MicrogridEnv.reset, _get_obs_length]) (by simp)

lemma episodesLoop_chain {σ : Type} {env : Env} {policy : PolicyFn σ} {safety : Bool}
    {seed_start : ℤ} {s : σ}
    (hpol : ∀ t o, ((policy t o).1).length = 2) :
    ∀ (n k : ℕ) (acc : List EpisodeMetrics),
      ∃ ds, episodesLoop env policy safety seed_start (List.range' k n)
          (policyStateChain env policy safety seed_start s k) acc
        = .ok (acc ++ ds, policyStateChain env policy safety seed_start s (k + n)) ∧
      ds.length = n ∧
      ∀ j (hj : j < ds.length),
        run_episode env policy (policyStateChain env policy safety seed_start s (k + j)) (k + j)
            (some (seed_start + ((k + j : ℕ) : ℤ))) safety
          = .ok (ds.get ⟨j, hj⟩,
              policyStateChain env policy safety seed_start s (k + j + 1)) := by
  intro n
  induction n with
  | zero =>
    intro k acc
    refine ⟨[], ?_, rfl, fun j hj => absurd hj (by simp)⟩
    rw [show List.range' k 0 = [] from rfl]
    simp [episodesLoop]
  | succ n ih =>
    intro k acc
    obtain ⟨r, hr⟩ := run_episode_total hpol
      (policyStateChain env policy safety seed_start s k) k (some (seed_start + (k : ℤ)))
    obtain ⟨m, ps2⟩ := r
    have hchain : policyStateChain env policy safety seed_start s (k + 1) = ps2 := by
      rw [policyStateChain.eq_2, hr]
    obtain ⟨ds, hloop, hlen, hidx⟩ := ih (k + 1) (acc ++ [m])
    refine ⟨m :: ds, ?_, by simp [hlen], ?_⟩
    · rw [List.range'_succ, episodesLoop.eq_2, hr]
      show episodesLoop env policy safety seed_start (List.range' (k + 1) n) ps2 (acc ++ [m])
        = _
      rw [← hchain, hloop]
      have hk : k + 1 + n = k + (n + 1) := by omega
      rw [hk]
      simp
    · intro j hj
      cases j with
      | zero =>
        simpa [hchain] using hr
      | succ j2 =>
        have hk : k + (j2 + 1) = k + 1 + j2 := by omega
        have hj2 : j2 < ds.length := by
          simpa using hj
        simpa [hk] using hidx j2 hj2

/-- Claim C7: `evaluate_policy` with `episodes ≤ 0` fails fast with the
configuration error (returned by the guard before the episode loop), and with
`episodes = N > 0` it returns exactly `N` per-episode records where record
`j` (j = 0 … N−1) is produced by `run_episode` on seed `seed_start + j` and
episode index `j`, sequentially threading the policy state from one episode to
the next. -/
theorem claim_C7 {σ : Type} (env : Env) (policy : PolicyFn σ) (s : σ) (nm : String)
    (episodes seed_start : ℤ) (safety : Bool)
    (hpol : ∀ t o, ((policy t o).1).length = 2) :
    (episodes ≤ 0 → evaluate_policy env policy s nm episodes seed_start safety
        = .error "episodes must be greater than 0.") ∧
    (0 < episodes → ∃ summary psF,
      evaluate_policy env policy s nm episodes seed_start safety = .ok (summary, psF) ∧
      summary.details.length = episodes.toNat ∧
      psF = policyStateChain env policy safety seed_start s episodes.toNat ∧
      ∀ j (hj : j < summary.details.length),
        run_episode env policy (policyStateChain env policy safety seed_start s j) j
            (some (seed_start + (j : ℤ))) safety
          = .ok (summary.details.get ⟨j, hj⟩,
              policyStateChain env policy safety seed_start s (j + 1))) := by
  constructor
  · intro h
    unfold evaluate_policy
    rw [if_pos h]
  · intro h
    have hneg : ¬(episodes ≤ 0) := not_le.2 h
    obtain ⟨ds, hloop, hlen, hidx⟩ :=
      @episodesLoop_chain σ env policy safety seed_start s hpol episodes.toNat 0 []
    have hchain0 : policyStateChain env policy safety seed_start s 0 = s := rfl
    rw [hchain0] at hloop
    simp only [List.nil_append, Nat.zero_add] at hloop hidx
    refine ⟨⟨nm, episodes,
        npMean (ds.map EpisodeMetrics.total_reward),
        npMean (ds.map EpisodeMetrics.grid_cost),
        npMean (ds.map EpisodeMetrics.degradation_cost),
        npMean (ds.map EpisodeMetrics.penalty_cost),
        npMean (ds.map EpisodeMetrics.unmet_load_kwh),
        npMean (ds.map EpisodeMetrics.curtailed_kwh),
        npMean (ds.map EpisodeMetrics.import_kwh),
        npMean (ds.map EpisodeMetrics.export_kwh),
        npMean (ds.map EpisodeMetrics.battery_throughput_kwh),
        npMean (ds.map fun m => (m.safety_overrides : ℚ)), ds⟩,
      policyStateChain env policy safety seed_start s episodes.toNat, ?_, hlen, rfl, ?_⟩
    · unfold evaluate_policy
      rw [if_neg hneg, List.range_eq_range', hloop]
    · intro j hj
      exact hidx j hj

/-- Claim C7 witness: two episodes of the zero policy over the default
environment with safety enabled, seeds 5 and 6. -/
theorem claim_C7_witness :
    ((2 : ℤ) ≤ 0 → evaluate_policy defaultEnv zero_policy () "baseline" 2 5 true
        = .error "episodes must be greater than 0.") ∧
    ((0 : ℤ) < 2 → ∃ summary psF,
      evaluate_policy defaultEnv zero_policy () "baseline" 2 5 true = .ok (summary, psF) ∧
      summary.details.length = (2 : ℤ).toNat ∧
      psF = policyStateChain defaultEnv zero_policy true 5 () (2 : ℤ).toNat ∧
      ∀ j (hj : j < summary.details.length),
        run_episode defaultEnv zero_policy (policyStateChain defaultEnv zero_policy true 5 () j) j
            (some (5 + (j : ℤ))) true
          = .ok (summary.details.get ⟨j, hj⟩,
              policyStateChain defaultEnv zero_policy true 5 () (j + 1))) :=
  claim_C7 defaultEnv zero_policy () "baseline" 2 5 true (fun _ _ => rfl)

lemma episodeLoop_state_indep {σ : Type} {env : Env} {policy : PolicyFn σ} {safety : Bool}
    (hact : ∀ t t2 o, (policy t o).1 = (policy t2 o).1) :
    ∀ (fuel : ℕ) (s : EnvState) (obs : List ℚ) (ps ps2 : σ) (acc : EpisodeMetrics),
      (episodeLoop env policy safety fuel s obs ps acc).map Prod.fst
        = (episodeLoop env policy safety fuel s obs ps2 acc).map Prod.fst := by
  intro fuel
  induction fuel with
  | zero => intro s obs ps ps2 acc; rfl
  | succ fuel ih =>
    intro s obs ps ps2 acc
    rw [episodeLoop.eq_2, episodeLoop.eq_2]
    rw [hact ps ps2 obs]
    rcases hsan : (if safety then
        (SafetySupervisor.apply env.cfg (policy ps2 obs).1 obs).map
          (fun d => (d.action, d.overridden))
      else .ok ((policy ps2 obs).1, false)) with e | ao
    · simp [hsan]
    · obtain ⟨act, ov⟩ := ao
      rcases hstep : MicrogridEnv.step env s act with e | res
      · simp [hsan, hstep]
      · obtain ⟨s2, obs2, rew, tm, tr, info⟩ := res
        cases tm <;> cases tr
        · simp only [hsan, hstep]
          simp only [Bool.or_self, Bool.false_eq_true, if_false]
          exact ih s2 obs2 _ _ _
        · simp only [hsan, hstep]
          simp [Except.map]
        · simp only [hsan, hstep]
          simp [Except.map]
        · simp only [hsan, hstep]
          simp [Except.map]

lemma episodesLoop_state_indep {σ : Type} {env : Env} {policy : PolicyFn σ} {safety : Bool}
    {seed_start : ℤ} (hact : ∀ t t2 o, (policy t o).1 = (policy t2 o).1) :
    ∀ (eps : List ℕ) (ps ps2 : σ) (acc : List EpisodeMetrics),
      (episodesLoop env policy safety seed_start eps ps acc).map Prod.fst
        = (episodesLoop env policy safety seed_start eps ps2 acc).map Prod.fst := by
  intro eps
  induction eps with
  | nil => intro ps ps2 acc; rfl
  | cons e rest ih =>
    intro ps ps2 acc
    rw [episodesLoop.eq_2, episodesLoop.eq_2]
    have hkey : (run_episode env policy ps e (some (seed_start + (e : ℤ))) safety).map Prod.fst
        = (run_episode env policy ps2 e (some (seed_start + (e : ℤ))) safety).map Prod.fst := by
      unfold run_episode
      exact episodeLoop_state_indep hact _ _ _ _ _ _
    rcases h1 : run_episode env policy ps e (some (seed_start + (e : ℤ))) safety with e1 | r1 <;>
      rcases h2 : run_episode env policy ps2 e (some (seed_start + (e : ℤ))) safety with e2 | r2 <;>
      rw [h1, h2] at hkey <;> simp only [Except.map] at hkey
    · simp [Except.error.injEq] at hkey
      simp [hkey]
    · exact absurd hkey (by simp)
    · exact absurd hkey (by simp)
    · obtain ⟨m1, t1⟩ := r1
      obtain ⟨m2, t2⟩ := r2
      simp only [Except.ok.injEq] at hkey
      rw [hkey]
      exact ih t1 t2 (acc ++ [m2])

/-- Claim C8 (amended): for every policy whose action is a function of the
observation alone — its internal state never influences the action —
`evaluate_policy` yields identical summaries (hence bit-identical per-episode
metrics) regardless of the policy state it starts from, so repeated
invocations with identical configuration, seed_start and episode count agree.
The uniform-random policy is excluded: its action depends on the action
space's persistent generator state, which neither `reset(seed)` nor
`evaluate_policy` ever seeds or restores. -/
theorem claim_C8 {σ : Type} (env : Env) (policy : PolicyFn σ) (s s2 : σ)
    (nm : String) (episodes seed_start : ℤ) (safety : Bool)
    (hact : ∀ t t2 o, (policy t o).1 = (policy t2 o).1) :
    (evaluate_policy env policy s nm episodes seed_start safety).map Prod.fst
      = (evaluate_policy env policy s2 nm episodes seed_start safety).map Prod.fst := by
  unfold evaluate_policy
  by_cases h : episodes ≤ 0
  · rw [if_pos h, if_pos h]
  · rw [if_neg h, if_neg h]
    have hkey := @episodesLoop_state_indep σ env policy safety seed_start hact (List.range episodes.toNat) s s2 []
    rcases h1 : episodesLoop env policy safety seed_start (List.range episodes.toNat) s []
        with e1 | r1 <;>
      rcases h2 : episodesLoop env policy safety seed_start (List.range episodes.toNat) s2 []
        with e2 | r2 <;>
      rw [h1, h2] at hkey <;> simp only [Except.map] at hkey
    · simp only [Except.error.injEq] at hkey
      simp [hkey]
    · exact absurd hkey (by simp)
    · exact absurd hkey (by simp)
    · obtain ⟨d1, psF1⟩ := r1
      obtain ⟨d2, psF2⟩ := r2
      simp only [Except.ok.injEq] at hkey
      rw [hkey]
      rfl

/-- Claim C8 witness: a stateful policy whose action ignores its counter
state, started from counter 0 and from counter 1, over `env8`. -/
theorem claim_C8_witness :
    (evaluate_policy env8 (fun (n : ℕ) (_ : List ℚ) => (([5, 0] : List ℚ), n + 1))
        0 "fixed" 1 0 false).map Prod.fst
      = (evaluate_policy env8 (fun (n : ℕ) (_ : List ℚ) => (([5, 0] : List ℚ), n + 1))
        1 "fixed" 1 0 false).map Prod.fst :=
  claim_C8 env8 (fun (n : ℕ) (_ : List ℚ) => (([5, 0] : List ℚ), n + 1)) 0 1 "fixed" 1 0 false
    (fun _ _ _ => rfl)

/-- Claim C8, counterexample: the uniform-random policy draws from the action
space's persistent generator, which nothing reseeds between invocations.  The
first `evaluate_policy` call (identical configuration, policy, seed_start = 0,
1 episode) consumes the draw at position 0 and leaves the generator at
position 1; the repeated call therefore samples a different action, and the
per-episode metrics differ (battery throughput 10 kWh vs 20 kWh) — not
bit-identical. -/
theorem claim_C8_counterexample :
    (evaluate_policy env8 random_policy_fn 0 "random" 1 0 false).map
        (fun r => (r.1.avg_battery_throughput_kwh, r.2)) = .ok (10, 1) ∧
    (evaluate_policy env8 random_policy_fn 1 "random" 1 0 false).map
        (fun r => r.1.avg_battery_throughput_kwh) = .ok 20 := by
  constructor <;>
    norm_num [evaluate_policy, episodesLoop, run_episode, episodeLoop, MicrogridEnv.reset,
      MicrogridEnv.step, _get_obs, _value_at, _apply_battery_constraints, accumulateStep,
      initMetrics, npMean, random_policy_fn, rngStream, env8, clip, Except.map,
      Env.horizon, Env.dt_hours, List.range]

lemma _apply_battery_constraints_zero_cmd {b : BatteryConfig} {dt soc : ℚ}
    (hdt : 0 < dt) (hde : 0 ≤ b.discharge_efficiency) (hmaxd : 0 ≤ b.max_discharge_kw) :
    (_apply_battery_constraints b dt soc 0).2.1 = 0 := by
  have hL0 : 0 ≤ max (soc - b.soc_min) 0 * max b.capacity_kwh (1 / 1000000)
      * b.discharge_efficiency / dt :=
    div_nonneg (mul_nonneg (mul_nonneg (le_max_right _ _)
      (le_trans (by norm_num) (le_max_right _ _))) hde) hdt.le
  unfold _apply_battery_constraints
  rw [if_pos (le_refl (0 : ℚ))]
  exact min_eq_left (le_min hmaxd hL0)

lemma guardRails_fst_zero {b : BatteryConfig} {soc temp : ℚ} :
    (guardRails b soc temp 0).1 = 0 := by
  simp [guardRails]

lemma apply_zero {cfg : MicrogridConfig} {obs : List ℚ} (hobs : 6 ≤ obs.length)
    (hmaxc : 0 ≤ cfg.battery.max_charge_kw) (hmaxd : 0 ≤ cfg.battery.max_discharge_kw)
    (hmaxe : 0 ≤ cfg.grid.max_export_kw) (hmaxi : 0 ≤ cfg.grid.max_import_kw) :
    ∃ d, SafetySupervisor.apply cfg [0, 0] obs = .ok d ∧ d.action = [0, 0] := by
  have hc1 : ¬(([0, 0] : List ℚ).length ≠ 1 ∧ ([0, 0] : List ℚ).length ≠ 2) := by simp
  simp only [SafetySupervisor.apply, if_neg hc1, if_neg (not_lt.2 hobs)]
  refine ⟨_, rfl, ?_⟩
  have h0 : clip 0 (-cfg.battery.max_charge_kw) cfg.battery.max_discharge_kw = 0 :=
    clip_zero (neg_nonpos.2 hmaxc) hmaxd
  have h1 : clip 0 (-cfg.grid.max_export_kw) cfg.grid.max_import_kw = 0 :=
    clip_zero (neg_nonpos.2 hmaxe) hmaxi
  simp [h0, h1, guardRails_fst_zero]

lemma step_zero {env : Env} {s : EnvState} {p : Profiles} (hp : s.profiles = some p)
    (hdt : 0 < env.dt_hours) (hde : 0 ≤ env.cfg.battery.discharge_efficiency)
    (hmaxd : 0 ≤ env.cfg.battery.max_discharge_kw)
    (hmaxe : 0 ≤ env.cfg.grid.max_export_kw) (hmaxi : 0 ≤ env.cfg.grid.max_import_kw) :
    ∃ s2 obs2 rew tm info,
      MicrogridEnv.step env s [0, 0] = .ok (s2, obs2, rew, tm, false, info) ∧
      info.battery_kw = 0 ∧ info.grid_kw = 0 ∧
      info.unmet_load_kwh = max 0 (info.load_kw - info.renewable_kw) * env.dt_hours ∧
      info.curtailed_kwh = max 0 (info.renewable_kw - info.load_kw) * env.dt_hours ∧
      s2.profiles = some p ∧ s2.t = s.t + 1 ∧ obs2.length = 8 ∧
      (tm = true ↔ env.horizon ≤ s.t + 1) := by
  have hb0 : (_apply_battery_constraints env.cfg.battery env.dt_hours s.soc 0).2.1 = 0 :=
    _apply_battery_constraints_zero_cmd hdt hde hmaxd
  have hg0 : clip 0 (-env.cfg.grid.max_export_kw) env.cfg.grid.max_import_kw = 0 :=
    clip_zero (neg_nonpos.2 hmaxe) hmaxi
  obtain ⟨t, soc, temp, prof⟩ := s
  cases prof with
  | none => exact absurd hp (by simp)
  | some q =>
    have hq : q = p := by simpa using hp
    subst hq
    have hl : ([0, 0] : List ℚ).length = 2 := rfl
    rcases hres : MicrogridEnv.step env ⟨t, soc, temp, some q⟩ [0, 0] with e | r
    · exact absurd hres (by simp [MicrogridEnv.step])
    · obtain ⟨s2, obs2, rew, tm, tr, info⟩ := r
      have hcomp := hres
      simp only [MicrogridEnv.step, hl, ne_eq, not_true_eq_false, if_false,
        List.getD_cons_zero, List.getD_cons_succ, Except.ok.injEq, Prod.mk.injEq] at hcomp
      obtain ⟨h1, h2, h3, h4, h5, h6⟩ := hcomp
      refine ⟨s2, obs2, rew, tm, info, ?_, ?_, ?_, ?_, ?_, ?_, ?_, ?_, ?_⟩
      · rw [← h5]
      · rw [← h6]
        exact hb0
      · rw [← h6]
        exact hg0
      · rw [← h6]
        show (0 ⊔ -(_ + _ + _ - _)) * env.dt_hours = _
        rw [hb0, hg0]
        have harg : ∀ x y : ℚ, -(x + 0 + 0 - y) = y - x := fun x y => by ring
        rw [harg]
      · rw [← h6]
        show (0 ⊔ (_ + _ + _ - _)) * env.dt_hours = _
        rw [hb0, hg0]
        have harg : ∀ x y : ℚ, x + 0 + 0 - y = x - y := fun x y => by ring
        rw [harg]
      · rw [← h1]
      · rw [← h1]
      · rw [← h2]
        exact _get_obs_length
      · rw [← h4]
        simp

lemma episodeLoop_zero {env : Env} (safety : Bool)
    (hdt : 0 < env.dt_hours) (hde : 0 ≤ env.cfg.battery.discharge_efficiency)
    (hmaxc : 0 ≤ env.cfg.battery.max_charge_kw)
    (hmaxd : 0 ≤ env.cfg.battery.max_discharge_kw)
    (hmaxe : 0 ≤ env.cfg.grid.max_export_kw) (hmaxi : 0 ≤ env.cfg.grid.max_import_kw) :
    ∀ (fuel : ℕ) (s : EnvState) (obs : List ℚ) (acc : EpisodeMetrics) (p : Profiles),
      s.profiles = some p → obs.length = 8 → env.horizon ≤ fuel + s.t →
      ∃ acc2, episodeLoop env zero_policy safety (fuel + 1) s obs () acc = .ok (acc2, ()) ∧
        acc2.battery_throughput_kwh = acc.battery_throughput_kwh := by
  have hsan : ∀ obs2 : List ℚ, 6 ≤ obs2.length →
      ∃ ov, (if safety then
          (SafetySupervisor.apply env.cfg (zero_policy () obs2).1 obs2).map
            (fun d => (d.action, d.overridden))
        else .ok ((zero_policy () obs2).1, false)) = .ok (([0, 0] : List ℚ), ov) := by
    intro obs2 hobs2
    by_cases hs : safety
    · obtain ⟨d, hd, hda⟩ := @apply_zero env.cfg obs2 hobs2 hmaxc hmaxd hmaxe hmaxi
      exact ⟨d.overridden, by simp [hs, zero_policy, hd, hda, Except.map]⟩
    · exact ⟨false, by simp [hs, zero_policy]⟩
  intro fuel
  induction fuel with
  | zero =>
    intro s obs acc p hp hobs hfuel
    obtain ⟨ov, hov⟩ := hsan obs (by rw [hobs]; norm_num)
    obtain ⟨s2, obs2, rew, tm, info, hstep, hbk, hgk, hunmet, hcurt, hp2, ht2, hobs2, htm⟩ :=
      @step_zero env _ _ hp hdt hde hmaxd hmaxe hmaxi
    have htm2 : tm = true := htm.2 (by omega)
    refine ⟨accumulateStep env acc rew info ov, ?_, ?_⟩
    · rw [episodeLoop.eq_2]
      simp [hov, hstep, htm2]
    · simp [accumulateStep, hbk]
  | succ fuel ih =>
    intro s obs acc p hp hobs hfuel
    obtain ⟨ov, hov⟩ := hsan obs (by rw [hobs]; norm_num)
    obtain ⟨s2, obs2, rew, tm, info, hstep, hbk, hgk, hunmet, hcurt, hp2, ht2, hobs2, htm⟩ :=
      @step_zero env _ _ hp hdt hde hmaxd hmaxe hmaxi
    cases htmv : tm with
    | true =>
      refine ⟨accumulateStep env acc rew info ov, ?_, ?_⟩
      · rw [episodeLoop.eq_2]
        simp [hov, hstep, htmv]
      · simp [accumulateStep, hbk]
    | false =>
      obtain ⟨acc2, hloop, hbt⟩ := ih s2 obs2
        (accumulateStep env acc rew info ov) p hp2 hobs2 (by omega)
      refine ⟨acc2, ?_, ?_⟩
      · rw [episodeLoop.eq_2]
        simp only [hov, hstep, htmv, Bool.false_or]
        simpa using hloop
      · rw [hbt]
        simp [accumulateStep, hbk]

/-- Claim C9: with a valid configuration, every step on the all-zero action
`[0, 0]` realizes zero battery power and zero grid power, leaving the net
balance at `renewable_kw − load_kw` (visible as the unmet/curtailed energies),
and a full episode of the all-zero policy — with or without the safety layer —
completes with zero total battery throughput; this holds for every profile
source and horizon, since `env` is arbitrary. -/
theorem claim_C9 (env : Env)
    (hdt : 0 < env.dt_hours)
    (hce : 0 < env.cfg.battery.charge_efficiency)
    (hde : 0 < env.cfg.battery.discharge_efficiency)
    (hmaxc : 0 ≤ env.cfg.battery.max_charge_kw)
    (hmaxd : 0 ≤ env.cfg.battery.max_discharge_kw)
    (hmaxe : 0 ≤ env.cfg.grid.max_export_kw)
    (hmaxi : 0 ≤ env.cfg.grid.max_import_kw) :
    (∀ (s : EnvState) (p : Profiles), s.profiles = some p →
      ∃ s2 obs2 rew tm info,
        MicrogridEnv.step env s [0, 0] = .ok (s2, obs2, rew, tm, false, info) ∧
        info.battery_kw = 0 ∧ info.grid_kw = 0 ∧
        info.unmet_load_kwh = max 0 (info.load_kw - info.renewable_kw) * env.dt_hours ∧
        info.curtailed_kwh = max 0 (info.renewable_kw - info.load_kw) * env.dt_hours) ∧
    (∀ (idx : ℕ) (seed : Option ℤ) (safety : Bool),
      ∃ m, run_episode env zero_policy () idx seed safety = .ok (m, ()) ∧
        m.battery_throughput_kwh = 0) := by
  constructor
  · intro s p hp
    obtain ⟨s2, obs2, rew, tm, info, hstep, hbk, hgk, hunmet, hcurt, _, _, _, _⟩ :=
      @step_zero env _ _ hp hdt hde.le hmaxd hmaxe hmaxi
    exact ⟨s2, obs2, rew, tm, info, hstep, hbk, hgk, hunmet, hcurt⟩
  · intro idx seed safety
    obtain ⟨acc2, hloop, hbt⟩ :=
      @episodeLoop_zero env safety hdt hde.le hmaxc hmaxd hmaxe hmaxi
        env.horizon (MicrogridEnv.reset env seed none).1 (MicrogridEnv.reset env seed none).2
        (initMetrics idx) (env.profilesOf (seed.getD env.cfg.environment.seed))
        (by simp [MicrogridEnv.reset]) (by simp [MicrogridEnv.reset, _get_obs_length])
        (by simp)
    refine ⟨acc2, ?_, ?_⟩
    · unfold run_episode
      exact hloop
    · rw [hbt]
      rfl

/-- Claim C9 witness: the default environment satisfies the configuration
hypotheses. -/
theorem claim_C9_witness :
    (∀ (s : EnvState) (p : Profiles), s.profiles = some p →
      ∃ s2 obs2 rew tm info,
        MicrogridEnv.step defaultEnv s [0, 0] = .ok (s2, obs2, rew, tm, false, info) ∧
        info.battery_kw = 0 ∧ info.grid_kw = 0 ∧
        info.unmet_load_kwh
          = max 0 (info.load_kw - info.renewable_kw) * defaultEnv.dt_hours ∧
        info.curtailed_kwh
          = max 0 (info.renewable_kw - info.load_kw) * defaultEnv.dt_hours) ∧
    (∀ (idx : ℕ) (seed : Option ℤ) (safety : Bool),
      ∃ m, run_episode defaultEnv zero_policy () idx seed safety = .ok (m, ()) ∧
        m.battery_throughput_kwh = 0) :=
  claim_C9 defaultEnv (by norm_num [defaultEnv, defaultConfig, Env.dt_hours])
    (by norm_num [defaultEnv, defaultConfig, defaultBattery])
    (by norm_num [defaultEnv, defaultConfig, defaultBattery])
    (by norm_num [defaultEnv, defaultConfig, defaultBattery])
    (by norm_num [defaultEnv, defaultConfig, defaultBattery])
    (by norm_num [defaultEnv, defaultConfig, defaultGrid])
    (by norm_num [defaultEnv, defaultConfig, defaultGrid])

end Microgrid
